import Mathlib

/-!
Verification of the aria2 download-manager watcher (`script.py`).

The development shallowly embeds the pieces of the program the claims
are about:

* `Aria2Manager.download_links` / `Aria2Manager._run_download` /
  `Aria2Manager.find_executable` — the single-flight dispatcher, the
  background download task and executable memoization;
* `LinkFileHandler.on_modified` — event filtering plus the inline
  debounce check;
* `FileOpener.open_file` and `DownloadManager.run` — the start
  sequence;
* a small interleaving machine for the two-thread dispatch race.

External effects (file reads, `shutil.which`, the spawned subprocess)
are passed in as explicit inputs, and Python timestamps are modelled
as rationals.
-/

namespace Script

/-- State owned by `Aria2Manager`: the `_is_downloading` flag and the
memoized `_executable_path` (the `_download_lock` only matters in the
interleaving model, below). -/
structure Aria2State where
  isDownloading : Bool
  executablePath : Option String
  deriving Repr, DecidableEq

/-- The external world a single `download_links` call can observe:
the link file's lines (`none` models an exception while opening or
reading it, the `except` branch at line 127) and the result of
`shutil.which` for the aria2c executable. -/
structure Env where
  fileContents : Option (List String)
  whichResult : Option String
  deriving Repr, DecidableEq

/-- Python `str.strip()`: drop leading and trailing whitespace. -/
def pyStrip (s : String) : String :=
  String.mk (((s.data.dropWhile Char.isWhitespace).reverse.dropWhile
    Char.isWhitespace).reverse)

/-- Python `str.startswith` applied to the comment marker: the first
character is `'#'`. -/
def startsWithHash (s : String) : Bool :=
  match s.data with
  | [] => false
  | c :: _ => c == '#'

/-- A line "counts" in the `has_links` check of `download_links`
(line 122): Python `line.strip() and not line.strip().startswith(
the comment marker)`. -/
def lineIsContent (line : String) : Bool :=
  let t := pyStrip line
  (t != "") && !(startsWithHash t)

/-- The complement of `lineIsContent`, in the spec's words: the line
is, after trimming, empty or a comment. -/
def commentOrBlank (l : String) : Bool :=
  (pyStrip l == "") || startsWithHash (pyStrip l)

/-- `any(...)` over the file's lines (line 122 of `download_links`). -/
def hasLinks (lines : List String) : Bool :=
  lines.any lineIsContent

/-- `Aria2Manager.find_executable`: return the cached path when set,
otherwise consult `shutil.which`; cache and return a hit, return
`none` on a miss (lines 84-97). -/
def find_executable (env : Env) (s : Aria2State) : Option String × Aria2State :=
  match s.executablePath with
  | some p => (some p, s)
  | none =>
    match env.whichResult with
    | some p => (some p, { s with executablePath := some p })
    | none => (none, s)

/-- Which branch of `download_links` produced the return value.  The
branches are observable in the source through their distinct console
messages / log lines, even though the Python return type is `bool`. -/
inductive DispatchOutcome where
  | started
  | skippedAlreadyRunning
  | skippedNoContent
  | skippedUnreadable
  | skippedNoExecutable
  deriving Repr, DecidableEq

/-- Everything a `download_links` call produces: the Python `bool`
return value, the branch taken, whether a background thread was
spawned (lines 138-139), and the manager state afterwards.  Note the
call itself never writes `_is_downloading`; only the spawned
`_run_download` thread does. -/
structure DispatchReturn where
  retval : Bool
  outcome : DispatchOutcome
  spawned : Bool
  state : Aria2State
  deriving Repr, DecidableEq

/-- `Aria2Manager.download_links` (lines 111-141): check the
`_is_downloading` flag, then the file's content, then resolve the
executable, then spawn the download thread and return `True`. -/
def download_links (env : Env) (s : Aria2State) : DispatchReturn :=
  if s.isDownloading then
    ⟨false, .skippedAlreadyRunning, false, s⟩
  else
    match env.fileContents with
    | none => ⟨false, .skippedUnreadable, false, s⟩
    | some lines =>
      if !hasLinks lines then
        ⟨false, .skippedNoContent, false, s⟩
      else
        match find_executable env s with
        | (none, s') => ⟨false, .skippedNoExecutable, false, s'⟩
        | (some _, s') => ⟨true, .started, true, s'⟩

/-- What the spawned subprocess did: `subprocess.run` returned an exit
code, or the launch raised (the `except` branch at line 170). -/
inductive LaunchResult where
  | exited (code : Int)
  | raised
  deriving Repr, DecidableEq

/-- The console report `_run_download` prints for each outcome
(lines 162-171): four distinct messages. -/
inductive RunReport where
  | success
  | ioErrorHint
  | genericNonZero (code : Int)
  | launchError
  deriving Repr, DecidableEq

/-- The exit-code classification in `_run_download` (lines 162-171):
`0` success, `28` the I/O-space/permission hint, any other code the
generic message carrying the code, an exception the distinct
"Unexpected error" report. -/
def classifyOutcome : LaunchResult → RunReport
  | .exited code =>
    if code = 0 then .success
    else if code = 28 then .ioErrorHint
    else .genericNonZero code
  | .raised => .launchError

/-- `Aria2Manager._run_download` (lines 143-175): set
`_is_downloading` under the lock, run the process and classify its
result (or catch the exception), and in the `finally` block reset
`_is_downloading` under the lock.  Sequential model: the lock
acquisitions are elided, the `finally` is unconditional on both the
normal and the exceptional path. -/
def run_download (r : LaunchResult) (s : Aria2State) : RunReport × Aria2State :=
  let s1 : Aria2State := { s with isDownloading := true }
  let report := classifyOutcome r
  (report, { s1 with isDownloading := false })

/-- Debounce state held by `LinkFileHandler`: `_last_modified`
(initially `0.0`) and `_debounce_seconds` (`Config.DEBOUNCE_SECONDS =
1.0`).  Timestamps are rationals. -/
structure DebounceState where
  lastModified : ℚ
  debounceSeconds : ℚ
  deriving Repr, DecidableEq

/-- The handler's initial debounce state (lines 269-270 with
`Config.DEBOUNCE_SECONDS = 1.0`). -/
def initialDebounceState : DebounceState :=
  ⟨0, 1⟩

/-- The inline debounce check of `on_modified` (lines 286-290), as the
spec's Debounce Gate `accept`: reject and keep the state when
`now - _last_modified < _debounce_seconds`, otherwise accept and set
`_last_modified = now`. -/
def debounceAccept (now : ℚ) (s : DebounceState) : Bool × DebounceState :=
  if now - s.lastModified < s.debounceSeconds then
    (false, s)
  else
    (true, { s with lastModified := now })

/-- Feed a list of timestamps through the gate in order, collecting
the accepted ones. -/
def acceptedTimes (s : DebounceState) : List ℚ → List ℚ
  | [] => []
  | t :: rest =>
    match debounceAccept t s with
    | (true, s') => t :: acceptedTimes s' rest
    | (false, s') => acceptedTimes s' rest

/-- A raw watchdog event as `on_modified` sees it: the
`is_directory` flag and the filename component of `src_path`. -/
structure FsEvent where
  isDirectory : Bool
  srcName : String
  deriving Repr, DecidableEq

/-- `LinkFileHandler.on_modified` (lines 272-296): discard directory
events, discard events whose filename differs from the target's name,
apply the debounce check, and on acceptance record the timestamp and
invoke `download_links`.  Returns the debounce state afterwards and
whether a dispatch was invoked. -/
def on_modified (targetName : String) (ev : FsEvent) (now : ℚ)
    (s : DebounceState) : DebounceState × Bool :=
  if ev.isDirectory then
    (s, false)
  else if ev.srcName ≠ targetName then
    (s, false)
  else if now - s.lastModified < s.debounceSeconds then
    (s, false)
  else
    ({ s with lastModified := now }, true)

/-- `FileOpener.open_file` (lines 186-224): when the file is missing,
create it with the default comment line, returning `False` if creation
fails; then attempt to open it in the platform editor, returning its
success.  `createOk` models the `write_text` attempt, `openOk` the
editor-launch attempt (on Linux this is `False` when `xdg-open` is
missing or the launch raises). -/
def open_file (fileExists createOk openOk : Bool) : Bool :=
  if !fileExists then
    if !createOk then false
    else openOk
  else openOk

/-- The four start-sequence steps of `DownloadManager.run`. -/
inductive StartStep where
  | mkdirStep
  | ensureFileStep
  | initialDispatchStep
  | watcherStep
  deriving Repr, DecidableEq

/-- The external world `DownloadManager.run` observes: whether
`mkdir` succeeds (line 320), the three `open_file` inputs, the
environment for the initial dispatch, and whether the observer can be
scheduled and started (lines 341-345). -/
structure RunEnv where
  mkdirOk : Bool
  fileExists : Bool
  createOk : Bool
  openOk : Bool
  dispatchEnv : Env
  watcherOk : Bool
  deriving Repr, DecidableEq

/-- `DownloadManager.run` (lines 308-364): create the download
directory (return 1 on `OSError`), ensure/open the link file via
`open_file` (return 1 on `False`), run one initial `download_links`
whose result is ignored, start the observer (return 1 on exception),
then loop until `KeyboardInterrupt` (return 0).  Returns the exit
code and the ordered list of steps reached. -/
def run (env : RunEnv) (s : Aria2State) : Int × List StartStep :=
  if !env.mkdirOk then
    (1, [.mkdirStep])
  else if !(open_file env.fileExists env.createOk env.openOk) then
    (1, [.mkdirStep, .ensureFileStep])
  else
    let _ := download_links env.dispatchEnv s
    if !env.watcherOk then
      (1, [.mkdirStep, .ensureFileStep, .initialDispatchStep, .watcherStep])
    else
      (0, [.mkdirStep, .ensureFileStep, .initialDispatchStep, .watcherStep])

/-!
Interleaving machine for the dispatch race.  Two event-context
threads (`D1`, `D2`) each run `download_links` against a readable
file with content and a resolvable executable; each can spawn its
download thread (`T1`, `T2`) running `_run_download`.  Atomic actions
follow the Python statements under the interpreter's serialization:
the flag read at line 115 is one step; the spawn at lines 138-141 is
one step; `_run_download` acquires the lock, sets the flag, releases,
runs the process (start and exit as separate steps so concurrent
children are observable), then reacquires, clears, releases.
-/

/-- Thread identifiers of the interleaving model. -/
inductive Tid where
  | D1
  | D2
  | T1
  | T2
  deriving Repr, DecidableEq

/-- Global state of the interleaving model: the shared
`_is_downloading` flag, the `_download_lock` holder, the program
counters (dispatch threads: 0 = about to read the flag, 1 = about to
spawn, 2 = returned; download threads: `none` = not spawned, and pcs
0-7 as in `threadStep`), the two dispatch return values, and the
number of live child processes. -/
structure SysState where
  flag : Bool
  lockHolder : Option Tid
  pcD1 : Nat
  pcD2 : Nat
  pcT1 : Option Nat
  pcT2 : Option Nat
  resD1 : Option Bool
  resD2 : Option Bool
  activeProcs : Nat
  deriving Repr, DecidableEq

/-- All threads at their entry points, flag clear, lock free, no
child process: the Idle state. -/
def initSys : SysState :=
  ⟨false, none, 0, 0, none, none, none, none, 0⟩

/-- One atomic step of a `download_links` caller: read the flag
(line 115) and either return `False` or fall through; then spawn the
download thread and return `True` (lines 138-141).  The file read,
content check and executable resolution touch no shared state and are
folded into the fall-through. -/
def dispatchStep (who : Tid) (s : SysState) : SysState :=
  let pc := if who = .D1 then s.pcD1 else s.pcD2
  match pc with
  | 0 =>
    if s.flag then
      if who = .D1 then { s with pcD1 := 2, resD1 := some false }
      else { s with pcD2 := 2, resD2 := some false }
    else
      if who = .D1 then { s with pcD1 := 1 } else { s with pcD2 := 1 }
  | 1 =>
    if who = .D1 then { s with pcD1 := 2, resD1 := some true, pcT1 := some 0 }
    else { s with pcD2 := 2, resD2 := some true, pcT2 := some 0 }
  | _ => s

/-- One atomic step of a spawned `_run_download` thread:
pc 0 acquire the lock (blocks while held), pc 1 set the flag,
pc 2 release, pc 3 the child process starts, pc 4 it exits,
pc 5 reacquire, pc 6 clear the flag, pc 7 release and finish. -/
def threadStep (who : Tid) (s : SysState) : SysState :=
  let pcOpt := if who = .T1 then s.pcT1 else s.pcT2
  match pcOpt with
  | none => s
  | some pc =>
    let setPc (n : Nat) (s' : SysState) : SysState :=
      if who = .T1 then { s' with pcT1 := some n } else { s' with pcT2 := some n }
    match pc with
    | 0 =>
      match s.lockHolder with
      | none => setPc 1 { s with lockHolder := some who }
      | some _ => s
    | 1 => setPc 2 { s with flag := true }
    | 2 => setPc 3 { s with lockHolder := none }
    | 3 => setPc 4 { s with activeProcs := s.activeProcs + 1 }
    | 4 => setPc 5 { s with activeProcs := s.activeProcs - 1 }
    | 5 =>
      match s.lockHolder with
      | none => setPc 6 { s with lockHolder := some who }
      | some _ => s
    | 6 => setPc 7 { s with flag := false }
    | 7 => setPc 8 { s with lockHolder := none }
    | _ => s

/-- Scheduler-chosen atomic step. -/
def sysStep (s : SysState) (who : Tid) : SysState :=
  match who with
  | .D1 => dispatchStep .D1 s
  | .D2 => dispatchStep .D2 s
  | .T1 => threadStep .T1 s
  | .T2 => threadStep .T2 s

/-- Run a schedule from a state. -/
def execSched (sched : List Tid) (s : SysState) : SysState :=
  sched.foldl sysStep s

/-- The schedule exhibiting the race: both dispatch calls run their
flag check before either spawned thread has set the flag, then both
download threads start their child processes. -/
def raceSched : List Tid :=
  [.D1, .D1, .D2, .D2, .T1, .T1, .T1, .T1, .T2, .T2, .T2, .T2]

/-! Helper lemmas about the debounce gate. -/

/-- The gate never changes the window, only `lastModified`. -/
theorem debounceAccept_window (now : ℚ) (s : DebounceState) :
    ((debounceAccept now s).2).debounceSeconds = s.debounceSeconds := by
  unfold debounceAccept
  split <;> rfl

/-- Every timestamp the gate accepts lies at least a window past the
`lastModified` it started from. -/
theorem acceptedTimes_sep (w : ℚ) (hw : 0 < w) :
    ∀ (ts : List ℚ) (s : DebounceState), s.debounceSeconds = w →
      ∀ b ∈ acceptedTimes s ts, w ≤ b - s.lastModified := by
  intro ts
  induction ts with
  | nil =>
    intro s hs b hb
    simp [acceptedTimes] at hb
  | cons t rest ih =>
    intro s hs b hb
    by_cases hcond : t - s.lastModified < s.debounceSeconds
    · simp [acceptedTimes, debounceAccept, hcond] at hb
      exact ih s hs b hb
    · simp [acceptedTimes, debounceAccept, hcond] at hb
      rcases hb with hb | hb
      · subst hb
        rw [← hs]
        linarith
      · have h2 := ih { s with lastModified := t } hs b hb
        simp only at h2
        have h3 : w ≤ t - s.lastModified := by
          rw [← hs]
          linarith
        linarith

/-- Accepted timestamps are pairwise separated by at least the
window. -/
theorem acceptedTimes_pairwise (w : ℚ) (hw : 0 < w) :
    ∀ (ts : List ℚ) (s : DebounceState), s.debounceSeconds = w →
      (acceptedTimes s ts).Pairwise (fun a b => w ≤ b - a) := by
  intro ts
  induction ts with
  | nil =>
    intro s hs
    simp [acceptedTimes]
  | cons t rest ih =>
    intro s hs
    by_cases hcond : t - s.lastModified < s.debounceSeconds
    · simp only [acceptedTimes, debounceAccept, hcond, if_pos]
      exact ih s hs
    · simp only [acceptedTimes, debounceAccept, hcond, if_neg, not_false_iff]
      refine List.Pairwise.cons ?_ (ih { s with lastModified := t } hs)
      intro b hb
      have := acceptedTimes_sep w hw rest { s with lastModified := t } hs b hb
      simpa using this

/-!
The claim theorems.
-/

/-- C1: the claimed single-flight property fails on the code.  The
flag check in `download_links` (line 115) is not under the lock and
the flag is set only by the spawned `_run_download` thread
(line 146), so from Idle a valid interleaving lets both concurrent
dispatch attempts return `Started` (`True`) and lets two child
download processes run at once; the second download thread also sets
Running while the state is already Running. -/
theorem single_flight_race :
    initSys.flag = false ∧
    (execSched raceSched initSys).resD1 = some true ∧
    (execSched raceSched initSys).resD2 = some true ∧
    (execSched raceSched initSys).activeProcs = 2 ∧
    (execSched (raceSched.take 9) initSys).flag = true ∧
    (execSched (raceSched.take 9) initSys).pcT2 = some 1 ∧
    (execSched (raceSched.take 9) initSys).lockHolder = some .T2 := by
  decide

/-- C2: the gate accepts `now` and sets `lastModified := now` iff
`now - lastModified ≥ window`, otherwise rejects and leaves the state
unchanged; over any strictly increasing timestamp sequence, no two
accepted timestamps are closer together than the window. -/
theorem debounce_gate_contract (now : ℚ) (s : DebounceState) (ts : List ℚ)
    (_hts : ts.Chain' (· < ·)) (hw : 0 < s.debounceSeconds) :
    ((debounceAccept now s).1 = true ↔ s.debounceSeconds ≤ now - s.lastModified) ∧
    (s.debounceSeconds ≤ now - s.lastModified →
      debounceAccept now s = (true, { s with lastModified := now })) ∧
    (now - s.lastModified < s.debounceSeconds →
      debounceAccept now s = (false, s)) ∧
    (acceptedTimes s ts).Pairwise (fun a b => s.debounceSeconds ≤ b - a) := by
  refine ⟨?_, ?_, ?_, acceptedTimes_pairwise s.debounceSeconds hw ts s rfl⟩
  · unfold debounceAccept
    split
    · simp
      linarith
    · simp
      linarith
  · intro h
    unfold debounceAccept
    rw [if_neg]
    linarith
  · intro h
    unfold debounceAccept
    rw [if_pos h]

/-- Witness for C2 at the source's initial state and window, on the
increasing timestamps 1, 3/2, 5/2, 4. -/
theorem debounce_gate_contract_witness :
    ((debounceAccept 1 initialDebounceState).1 = true ↔
      (1 : ℚ) ≤ 1 - 0) ∧
    ((1 : ℚ) ≤ 1 - 0 →
      debounceAccept 1 initialDebounceState = (true, ⟨1, 1⟩)) ∧
    ((1 : ℚ) - 0 < 1 → debounceAccept 1 initialDebounceState = (false, ⟨0, 1⟩)) ∧
    (acceptedTimes initialDebounceState [1, 3/2, 5/2, 4]).Pairwise
      (fun a b => (1 : ℚ) ≤ b - a) := by
  have h := debounce_gate_contract 1 initialDebounceState [1, 3/2, 5/2, 4]
    (by norm_num) (by norm_num [initialDebounceState])
  simpa [initialDebounceState] using h

/-- C3: whatever the background task observed — exit 0, a non-zero
exit, or a launch exception — `_run_download` leaves
`_is_downloading` clear (the reset sits in `finally`), and a
subsequent dispatch against a readable file with content and a
resolvable executable returns `Started`. -/
theorem run_download_resets_to_idle (r : LaunchResult) (s : Aria2State)
    (env : Env) (lines : List String) (w : String)
    (hf : env.fileContents = some lines) (hc : hasLinks lines = true)
    (hw : env.whichResult = some w) :
    ((run_download r s).2).isDownloading = false ∧
    (download_links env (run_download r s).2).outcome = .started ∧
    (download_links env (run_download r s).2).retval = true := by
  refine ⟨rfl, ?_, ?_⟩ <;>
  · simp only [run_download, download_links, Bool.false_eq_true, if_false, hf, hc,
      Bool.not_true, find_executable]
    cases hcache : s.executablePath with
    | some p => simp [hcache]
    | none => simp [hcache, hw]

/-- Witness for C3: after a launch exception from a fresh manager
state, a dispatch against a one-link file with `aria2c` on PATH
returns `Started`. -/
theorem run_download_resets_to_idle_witness :
    ((run_download .raised ⟨true, none⟩).2).isDownloading = false ∧
    (download_links ⟨some ["https://example.com/a.iso"], some "aria2c"⟩
      (run_download .raised ⟨true, none⟩).2).outcome = .started ∧
    (download_links ⟨some ["https://example.com/a.iso"], some "aria2c"⟩
      (run_download .raised ⟨true, none⟩).2).retval = true :=
  run_download_resets_to_idle .raised ⟨true, none⟩
    ⟨some ["https://example.com/a.iso"], some "aria2c"⟩
    ["https://example.com/a.iso"] "aria2c" rfl (by decide) rfl

/-- C4 counterexample: with a download already in progress and a
readable file holding only a comment line and blank lines, the
dispatch returns `SkippedAlreadyRunning` (the flag check at line 115
precedes the content check at line 122), not `SkippedNoContent` as
the claim's iff requires. -/
theorem content_check_counterexample :
    (["# add links here", "", "   "].all commentOrBlank) = true ∧
    (download_links ⟨some ["# add links here", "", "   "], some "aria2c"⟩
      ⟨true, none⟩).outcome = .skippedAlreadyRunning ∧
    (download_links ⟨some ["# add links here", "", "   "], some "aria2c"⟩
      ⟨true, none⟩).outcome ≠ .skippedNoContent := by
  refine ⟨by decide, rfl, by decide⟩

/-- C4 (amended): while no download is in progress, a dispatch on a
readable file returns `SkippedNoContent` iff every line is, after
trimming, empty or starts with the comment marker; when some trimmed
line is non-empty and not a comment the dispatch proceeds past the
content check, returning `Started` or, when the executable cannot be
resolved, the executable-not-found skip. -/
theorem content_check_when_idle (env : Env) (s : Aria2State) (lines : List String)
    (hidle : s.isDownloading = false) (hf : env.fileContents = some lines) :
    ((download_links env s).outcome = .skippedNoContent ↔
      ∀ l ∈ lines, pyStrip l = "" ∨ startsWithHash (pyStrip l) = true) ∧
    (hasLinks lines = true →
      (download_links env s).outcome ≠ .skippedNoContent ∧
      ((download_links env s).outcome = .started ∨
        (download_links env s).outcome = .skippedNoExecutable)) := by
  have hline : ∀ l : String, lineIsContent l = false ↔
      (pyStrip l = "" ∨ startsWithHash (pyStrip l) = true) := by
    intro l
    simp only [lineIsContent]
    cases hsw : startsWithHash (pyStrip l) <;>
      by_cases he : pyStrip l = "" <;> simp [he, hsw]
  have hchar : hasLinks lines = false ↔
      ∀ l ∈ lines, pyStrip l = "" ∨ startsWithHash (pyStrip l) = true := by
    simp only [hasLinks, List.any_eq_false, Bool.not_eq_true]
    exact forall₂_congr fun l _ => hline l
  constructor
  · rw [← hchar]
    simp only [download_links, hidle, Bool.false_eq_true, if_false, hf]
    cases hlinks : hasLinks lines with
    | false => simp
    | true =>
      simp only [Bool.not_true, Bool.false_eq_true, if_false]
      cases hfind : find_executable env s with
      | mk fst snd =>
        cases fst <;> simp
  · intro hlinks
    simp only [download_links, hidle, Bool.false_eq_true, if_false, hf, hlinks,
      Bool.not_true]
    cases hfind : find_executable env s with
    | mk fst snd =>
      cases fst <;> simp

/-- Witness for C4 (amended): an idle manager, a file holding one
comment and one real link, `aria2c` on PATH. -/
theorem content_check_when_idle_witness :
    ((download_links ⟨some ["# hdr", "https://example.com/a.iso"], some "aria2c"⟩
        ⟨false, none⟩).outcome = .skippedNoContent ↔
      ∀ l ∈ ["# hdr", "https://example.com/a.iso"],
        pyStrip l = "" ∨ startsWithHash (pyStrip l) = true) ∧
    (hasLinks ["# hdr", "https://example.com/a.iso"] = true →
      (download_links ⟨some ["# hdr", "https://example.com/a.iso"], some "aria2c"⟩
        ⟨false, none⟩).outcome ≠ .skippedNoContent ∧
      ((download_links ⟨some ["# hdr", "https://example.com/a.iso"], some "aria2c"⟩
        ⟨false, none⟩).outcome = .started ∨
       (download_links ⟨some ["# hdr", "https://example.com/a.iso"], some "aria2c"⟩
        ⟨false, none⟩).outcome = .skippedNoExecutable)) :=
  content_check_when_idle ⟨some ["# hdr", "https://example.com/a.iso"], some "aria2c"⟩
    ⟨false, none⟩ ["# hdr", "https://example.com/a.iso"] rfl rfl

/-- C5: the background task reports success exactly on exit code 0,
reports code 28 with the dedicated I/O-space/permission hint, reports
every other non-zero code with the generic message carrying the code,
and reports a launch exception distinctly from every exit code. -/
theorem exit_code_classification (r : LaunchResult) (s : Aria2State) (code : Int)
    (hc0 : code ≠ 0) (hc28 : code ≠ 28) :
    ((run_download r s).1 = .success ↔ r = .exited 0) ∧
    (run_download (.exited 28) s).1 = .ioErrorHint ∧
    (run_download (.exited code) s).1 = .genericNonZero code ∧
    (run_download .raised s).1 = .launchError ∧
    (∀ c : Int, (run_download .raised s).1 ≠ (run_download (.exited c) s).1) := by
  refine ⟨?_, rfl, ?_, rfl, ?_⟩
  · cases r with
    | exited c =>
      simp only [run_download, classifyOutcome]
      by_cases h0 : c = 0
      · simp [h0]
      · by_cases h28 : c = 28 <;> simp [h0, h28]
    | raised =>
      simp [run_download, classifyOutcome]
  · simp [run_download, classifyOutcome, hc0, hc28]
  · intro c
    simp only [run_download, classifyOutcome]
    by_cases h0 : c = 0
    · simp [h0]
    · by_cases h28 : c = 28 <;> simp [h0, h28]

/-- Witness for C5 at exit code 7. -/
theorem exit_code_classification_witness :
    ((run_download (.exited 7) ⟨false, none⟩).1 = .success ↔
      LaunchResult.exited 7 = .exited 0) ∧
    (run_download (.exited 28) ⟨false, none⟩).1 = .ioErrorHint ∧
    (run_download (.exited 7) ⟨false, none⟩).1 = .genericNonZero 7 ∧
    (run_download .raised ⟨false, none⟩).1 = .launchError ∧
    (∀ c : Int, (run_download .raised ⟨false, none⟩).1 ≠
      (run_download (.exited c) ⟨false, none⟩).1) :=
  exit_code_classification (.exited 7) ⟨false, none⟩ 7 (by decide) (by decide)

/-- C6 counterexample: the watched file already exists (so no
creation happens, let alone fails), yet the editor launch fails
(`open_file` returns `False`, e.g. no `xdg-open` on Linux) and `run`
exits fatally with code 1 — refuting "fatal only if creation
fails". -/
theorem start_sequence_counterexample :
    (RunEnv.mk true true true false ⟨some ["# x"], some "aria2c"⟩ true).fileExists
      = true ∧
    (run (RunEnv.mk true true true false ⟨some ["# x"], some "aria2c"⟩ true)
      ⟨false, none⟩).1 = 1 := by
  decide

/-- C6 (amended): startup performs, in order, download-directory
creation (fatal on failure), ensuring the watched file exists —
creating it with a default comment line if absent — and opening it in
an editor (fatal if creation fails or if the open fails), one
unconditional initial dispatch whose outcome is non-fatal and cannot
change the exit code, then watcher start (fatal on failure); no other
step causes a fatal exit. -/
theorem start_sequence (env : RunEnv) (s : Aria2State) :
    (env.mkdirOk = false → run env s = (1, [.mkdirStep])) ∧
    (env.fileExists = false → env.createOk = false →
      open_file env.fileExists env.createOk env.openOk = false) ∧
    (env.mkdirOk = true →
      open_file env.fileExists env.createOk env.openOk = false →
      run env s = (1, [.mkdirStep, .ensureFileStep])) ∧
    (env.mkdirOk = true →
      open_file env.fileExists env.createOk env.openOk = true →
      env.watcherOk = false →
      run env s =
        (1, [.mkdirStep, .ensureFileStep, .initialDispatchStep, .watcherStep])) ∧
    (env.mkdirOk = true →
      open_file env.fileExists env.createOk env.openOk = true →
      env.watcherOk = true →
      run env s =
        (0, [.mkdirStep, .ensureFileStep, .initialDispatchStep, .watcherStep])) ∧
    (∀ e : Env, run { env with dispatchEnv := e } s = run env s) := by
  refine ⟨?_, ?_, ?_, ?_, ?_, ?_⟩
  · intro h
    simp [run, h]
  · intro h1 h2
    simp [open_file, h1, h2]
  · intro h1 h2
    simp [run, h1, h2]
  · intro h1 h2 h3
    simp [run, h1, h2, h3]
  · intro h1 h2 h3
    simp [run, h1, h2, h3]
  · intro e
    simp only [run]

/-- Witness for C6 (amended): the all-success environment reaches all
four steps and exits 0. -/
theorem start_sequence_witness :
    run (RunEnv.mk true true true true ⟨some ["# x"], some "aria2c"⟩ true)
        ⟨false, none⟩ =
      (0, [.mkdirStep, .ensureFileStep, .initialDispatchStep, .watcherStep]) :=
  (start_sequence (RunEnv.mk true true true true ⟨some ["# x"], some "aria2c"⟩ true)
    ⟨false, none⟩).2.2.2.2.1 rfl rfl rfl

/-- C7: while `_is_downloading` is set, a dispatch attempt returns
`False` with the already-running message, spawns nothing and leaves
the manager state untouched; its whole return value is independent of
the environment (file contents, PATH), so the file is never opened or
read and the debounce state — which `download_links` cannot even
reach — is unchanged. -/
theorem already_running_frame (env env' : Env) (s : Aria2State)
    (h : s.isDownloading = true) :
    download_links env s = ⟨false, .skippedAlreadyRunning, false, s⟩ ∧
    download_links env s = download_links env' s := by
  constructor
  · simp [download_links, h]
  · simp [download_links, h]

/-- Witness for C7: a running manager, probed with a content-bearing
environment versus an unreadable-file environment. -/
theorem already_running_frame_witness :
    download_links ⟨some ["https://example.com/a.iso"], some "aria2c"⟩ ⟨true, none⟩ =
      ⟨false, .skippedAlreadyRunning, false, ⟨true, none⟩⟩ ∧
    download_links ⟨some ["https://example.com/a.iso"], some "aria2c"⟩ ⟨true, none⟩ =
      download_links ⟨none, none⟩ ⟨true, none⟩ :=
  already_running_frame ⟨some ["https://example.com/a.iso"], some "aria2c"⟩
    ⟨none, none⟩ ⟨true, none⟩ rfl

/-- C8: directory events and events whose filename differs from the
target's are discarded with the debounce timestamp unchanged and no
dispatch; a matching non-directory event is handed to the debounce
gate, the state becomes exactly the gate's updated state, and a
dispatch is invoked exactly when the gate accepts. -/
theorem event_filtering (target : String) (ev : FsEvent) (now : ℚ)
    (s : DebounceState) :
    (ev.isDirectory = true → on_modified target ev now s = (s, false)) ∧
    (ev.srcName ≠ target → on_modified target ev now s = (s, false)) ∧
    (ev.isDirectory = false → ev.srcName = target →
      on_modified target ev now s =
        ((debounceAccept now s).2, (debounceAccept now s).1)) := by
  refine ⟨?_, ?_, ?_⟩
  · intro h
    simp [on_modified, h]
  · intro h
    cases hd : ev.isDirectory <;> simp [on_modified, hd, h]
  · intro h1 h2
    by_cases hdeb : now - s.lastModified < s.debounceSeconds <;>
      simp [on_modified, debounceAccept, h1, h2, hdeb]

/-- Witness for C8: a directory event, a `foo.txt` event, and an
accepted `links.txt` event at time 5 from the initial state. -/
theorem event_filtering_witness :
    on_modified "links.txt" ⟨true, "links.txt"⟩ 5 initialDebounceState =
      (initialDebounceState, false) ∧
    on_modified "links.txt" ⟨false, "foo.txt"⟩ 5 initialDebounceState =
      (initialDebounceState, false) ∧
    on_modified "links.txt" ⟨false, "links.txt"⟩ 5 initialDebounceState =
      ((debounceAccept 5 initialDebounceState).2,
        (debounceAccept 5 initialDebounceState).1) :=
  ⟨(event_filtering "links.txt" ⟨true, "links.txt"⟩ 5 initialDebounceState).1 rfl,
   (event_filtering "links.txt" ⟨false, "foo.txt"⟩ 5 initialDebounceState).2.1
     (by decide),
   (event_filtering "links.txt" ⟨false, "links.txt"⟩ 5 initialDebounceState).2.2
     rfl rfl⟩

/-- C9: the Python return value of `download_links` is `True` exactly
when the branch taken was `Started`, which is exactly when a
background thread was spawned; all four skip branches return the
indistinguishable value `False`. -/
theorem bool_return_collapses_skips (env : Env) (s : Aria2State) :
    (download_links env s).retval =
      ((download_links env s).outcome == .started) ∧
    (download_links env s).retval = (download_links env s).spawned := by
  simp only [download_links]
  cases hrun : s.isDownloading
  · cases hf : env.fileContents with
    | none => simp
    | some lines =>
      cases hl : hasLinks lines
      · simp [hl]
      · cases hfind : find_executable env s with
        | mk fst snd => cases fst <;> simp [hl, hfind]
  · simp

/-- C10: once `find_executable` has produced a path it is cached, and
every later call returns that same path with the state unchanged, no
matter what the system PATH would now answer. -/
theorem find_executable_memoized (env env' : Env) (s : Aria2State) (p : String)
    (h : (find_executable env s).1 = some p) :
    find_executable env' (find_executable env s).2 =
      (some p, (find_executable env s).2) := by
  cases hcache : s.executablePath with
  | some q =>
    simp only [find_executable, hcache] at h ⊢
    simp only [Option.some.injEq] at h
    subst h
    rfl
  | none =>
    cases hw : env.whichResult with
    | none => simp [find_executable, hcache, hw] at h
    | some q =>
      simp only [find_executable, hcache, hw] at h ⊢
      simp only [Option.some.injEq] at h
      subst h
      rfl

/-- Witness for C10: a first call resolving `aria2c`, a second call
against an empty PATH. -/
theorem find_executable_memoized_witness :
    find_executable ⟨none, none⟩
        (find_executable ⟨none, some "/usr/bin/aria2c"⟩ ⟨false, none⟩).2 =
      (some "/usr/bin/aria2c",
        (find_executable ⟨none, some "/usr/bin/aria2c"⟩ ⟨false, none⟩).2) :=
  find_executable_memoized ⟨none, some "/usr/bin/aria2c"⟩ ⟨none, none⟩
    ⟨false, none⟩ "/usr/bin/aria2c" rfl

end Script
